import Mathlib

/-!
Shallow embedding of `src/transcribe.py` (jbe456/transcriber).

The program has two deterministic components, a timestamp formatter
(`srt_timestamp`, lines 19-31) and an SRT serializer (`write_srt`,
lines 34-45), plus a `main` driver (lines 48-117) whose external
collaborators (the filesystem check `os.path.isfile` and the Whisper
model call) are modelled as explicit parameters.

Python floats are modelled as exact rationals; Python `round` on a
half-way value rounds half to even, which `roundHalfEven` reproduces.
File side effects are modelled by returning the content string that the
Python code writes.

The timestamp formatter appears in two forms.  `srt_timestamp_checked`
is the faithful one: it models the `OverflowError` that
`datetime.timedelta` raises when the value lies outside its representable
range of 999999999 days by returning `none`.  `srt_timestamp` is its
value on the non-raising domain, kept total so that the serializer
`write_srt` (which the program only reaches with ordinary segment times)
can be stated over plain strings; `srt_timestamp_checked_agrees` proves
the two agree wherever the checked form returns.
-/

/-- Rounding used by Python `round(x)`: nearest integer, ties to even. -/
def roundHalfEven (q : ℚ) : ℤ :=
  let f := ⌊q⌋
  let r := q - f
  if r < 1 / 2 then f
  else if 1 / 2 < r then f + 1
  else if f % 2 = 0 then f else f + 1

/-- Zero-padding of a natural number to width `w`, as Python zero-padded
decimal formatting of a non-negative integer. -/
def pad (w : ℕ) (n : ℕ) : String :=
  let s := toString n
  String.mk (List.replicate (w - s.length) '0') ++ s

/-- Lines 23-27 of `srt_timestamp`, restricted to the executions that
return: clamp negative input to zero, pass the value through
`datetime.timedelta` (which normalizes to a whole number of microseconds,
rounding half to even), take `total_seconds()`, multiply by 1000 and round
to an integer number of milliseconds.  The result is non-negative because
of the clamp, so it is returned as a natural number.  The bounded-range
check that `timedelta` performs on construction, raising `OverflowError`
beyond 999999999 days, is modelled by `timedeltaTotalUs` and
`totalMsChecked` below; `totalMs` is the value on the non-raising
domain. -/
def totalMs (seconds : ℚ) : ℕ :=
  let s : ℚ := if seconds < 0 then 0 else seconds
  let total_us : ℤ := roundHalfEven (s * 1000000)
  let td_total_seconds : ℚ := (total_us : ℚ) / 1000000
  (roundHalfEven (td_total_seconds * 1000)).toNat

/-- Embedding of `srt_timestamp` (lines 19-31) on the non-raising domain:
the chain of `divmod` calls on `total_ms` followed by the f-string with
zero-padded fields.  The faithful fallible form is
`srt_timestamp_checked`; see `srt_timestamp_checked_agrees`. -/
def srt_timestamp (seconds : ℚ) : String :=
  pad 2 (totalMs seconds / 3600000) ++ ":" ++
  pad 2 (totalMs seconds % 3600000 / 60000) ++ ":" ++
  pad 2 (totalMs seconds % 3600000 % 60000 / 1000) ++ "," ++
  pad 3 (totalMs seconds % 3600000 % 60000 % 1000)

/-- Construction of `datetime.timedelta(seconds=s)` on line 25, returning
its total length in whole microseconds (rounded half to even).  CPython
normalizes to days, seconds and microseconds, the days being the floor
division of the total microseconds by one day, and raises `OverflowError`
when the days lie outside [-999999999, 999999999]; the raise is modelled
as `none`. -/
def timedeltaTotalUs (seconds : ℚ) : Option ℤ :=
  if -999999999 ≤ (roundHalfEven (seconds * 1000000)).fdiv 86400000000 ∧
     (roundHalfEven (seconds * 1000000)).fdiv 86400000000 ≤ 999999999
  then some (roundHalfEven (seconds * 1000000)) else none

/-- Lines 23-27 of `srt_timestamp` with the `timedelta` range check kept:
clamp, construct the timedelta (which may fail), then round
`total_seconds()` times 1000 to milliseconds. -/
def totalMsChecked (seconds : ℚ) : Option ℕ :=
  (timedeltaTotalUs (if seconds < 0 then 0 else seconds)).map
    (fun us : ℤ => (roundHalfEven ((us : ℚ) / 1000000 * 1000)).toNat)

/-- Faithful embedding of `srt_timestamp` (lines 19-31): `none` models the
`OverflowError` escaping from the `timedelta` construction on line 25,
`some` a normal return of the formatted timestamp. -/
def srt_timestamp_checked (seconds : ℚ) : Option String :=
  (totalMsChecked seconds).map (fun tms =>
    pad 2 (tms / 3600000) ++ ":" ++ pad 2 (tms % 3600000 / 60000) ++ ":" ++
    pad 2 (tms % 3600000 % 60000 / 1000) ++ "," ++
    pad 3 (tms % 3600000 % 60000 % 1000))

/-- Characters stripped by Python `str.strip()` with no argument: exactly
the characters for which CPython `str.isspace()` is true, namely tab
through carriage return (0x09-0x0D), the four ASCII separator controls
(0x1C-0x1F), space, next line (0x85), no-break space (0xA0), ogham space
mark (0x1680), the en-quad through hair-space block (0x2000-0x200A), line
and paragraph separators (0x2028, 0x2029), narrow no-break space (0x202F),
medium mathematical space (0x205F) and ideographic space (0x3000). -/
def isPySpace (c : Char) : Bool :=
  c = '\t' || c = '\n' || c = '\x0b' || c = '\x0c' || c = '\r' ||
  c = '\x1c' || c = '\x1d' || c = '\x1e' || c = '\x1f' || c = ' ' ||
  c = '\x85' || c = '\xa0' || c = '\u1680' ||
  c = '\u2000' || c = '\u2001' || c = '\u2002' || c = '\u2003' ||
  c = '\u2004' || c = '\u2005' || c = '\u2006' || c = '\u2007' ||
  c = '\u2008' || c = '\u2009' || c = '\u200A' ||
  c = '\u2028' || c = '\u2029' || c = '\u202F' || c = '\u205F' ||
  c = '\u3000'

/-- Embedding of Python `str.strip()`: drop whitespace from both ends. -/
def pyStrip (s : String) : String :=
  String.mk (((s.data.dropWhile isPySpace).reverse.dropWhile isPySpace).reverse)

/-- Embedding of line 44, `text.replace("  ", " ")`, specialized to its
literal arguments: scan left to right, replacing each non-overlapping
occurrence of two consecutive spaces by one space and continuing after
the replacement. -/
def collapseDoubleSpace : List Char → List Char
  | ' ' :: ' ' :: rest => ' ' :: collapseDoubleSpace rest
  | c :: rest => c :: collapseDoubleSpace rest
  | [] => []

/-- Lines 42-44 of `write_srt`: `seg.get("text", "").strip().replace("  ", " ")`
applied to the raw text. -/
def cleanText (t : String) : String :=
  String.mk (collapseDoubleSpace (pyStrip t).data)

/-- Whisper segment as consumed by `write_srt`: a dict accessed with
`seg.get("start", 0.0)`, `seg.get("end", 0.0)`, `seg.get("text", "")`,
so every field may be absent.  Whisper segments also carry an `id`
field, which `write_srt` never reads; it is kept here to state that the
output is independent of it.  The `end` key is written `endT` because
`end` is a reserved word in Lean. -/
structure Segment where
  id : Option ℤ := none
  start : Option ℚ := none
  endT : Option ℚ := none
  text : Option String := none
deriving Repr, DecidableEq

/-- Caption block emitted for segment `seg` at position `i` by line 45:
`f"{i}\n{start} --> {end}\n{text}\n\n"`. -/
def srtBlock (i : ℕ) (seg : Segment) : String :=
  toString i ++ "\n" ++ srt_timestamp (seg.start.getD 0) ++ " --> " ++
  srt_timestamp (seg.endT.getD 0) ++ "\n" ++ cleanText (seg.text.getD "") ++ "\n\n"

/-- Embedding of `write_srt` (lines 34-45): the content of the UTF-8 file
written at `out_path`, produced by iterating `enumerate(segments, start=1)`
and writing one block per segment.  The file side effect is modelled by
returning the content string. -/
def write_srt (segments : List Segment) : String :=
  String.join ((List.enumFrom 1 segments).map (fun p => srtBlock p.1 p.2))

/-- Written from the words of the spec (section 4.2), for comparison with
`write_srt`: for each segment in order a block `<index>`, newline, the
timestamp range line, newline, the cleaned text, newline, blank line, with
`index` starting at `i` and incrementing by 1 per segment. -/
def specBlocksFrom (i : ℕ) : List Segment → String
  | [] => ""
  | seg :: rest =>
      (toString i ++ "\n" ++ srt_timestamp (seg.start.getD 0) ++ " --> " ++
       srt_timestamp (seg.endT.getD 0) ++ "\n" ++ cleanText (seg.text.getD "") ++
       "\n\n") ++ specBlocksFrom (i + 1) rest

/-- Index of the last occurrence of `c` in `cs`, or `-1` when absent, as
Python `str.rfind`. -/
def rfind (cs : List Char) (c : Char) : ℤ :=
  match (cs.enum.filter (fun p => p.2 = c)).getLast? with
  | some p => (p.1 : ℤ)
  | none => -1

/-- Embedding of `os.path.splitext` for POSIX paths (the CPython generic
algorithm): split at the last dot that lies after the last path separator,
unless every character between the separator and that dot is itself a dot
(so a leading-dot name such as `.bashrc` keeps its dot in the root). -/
def splitext (p : String) : String × String :=
  let cs := p.data
  let sepIndex := rfind cs '/'
  let dotIndex := rfind cs '.'
  if sepIndex < dotIndex then
    if ((cs.drop (sepIndex + 1).toNat).take (dotIndex - sepIndex - 1).toNat).any
        (fun c => c ≠ '.') then
      (String.mk (cs.take dotIndex.toNat), String.mk (cs.drop dotIndex.toNat))
    else (p, "")
  else (p, "")

/-- Python `a or b` for an optional string `a`: `a` when it is a truthy
value (present and non-empty), otherwise `b`. -/
def pyOrOpt (a b : Option String) : Option String :=
  match a with
  | some s => if s.isEmpty then b else some s
  | none => b

/-- Python `a or b` where `a` is an optional string and `b` a string. -/
def pyOrStr (a : Option String) (b : String) : String :=
  match a with
  | some s => if s.isEmpty then b else s
  | none => b

/-- Python truthiness of an optional string: `None` and `""` are falsy. -/
def optTruthy : Option String → Bool
  | some s => !s.isEmpty
  | none => false

/-- Parsed command line of the program (lines 49-81).  `argparse` yields
`None` for omitted optional string flags and `False` for omitted
`store_true` flags. -/
structure Args where
  input : String
  output : Option String := none
  model : String := "base"
  language : Option String := none
  translate : Bool := false
  device : Option String := none
  fp16 : Bool := false
deriving Repr, DecidableEq

/-- Result dict of `model.transcribe` as read by `main`:
`result.get("segments", [])` and `result.get("language")`, so both keys
may be absent. -/
structure TranscribeResult where
  segments : Option (List Segment) := none
  language : Option String := none

/-- Keyword arguments that `main` passes to `model.transcribe`
(lines 91-101). -/
structure TranscribeKwargs where
  task : String
  language : Option String
  fp16 : Bool
  temperature : ℚ
  no_speech_threshold : ℚ
  logprob_threshold : ℚ
  compression_ratio_threshold : ℚ
  condition_on_previous_text : Bool
deriving Repr, DecidableEq

/-- Observable outcome of one run of `main`: the exit code (0 when the
function returns normally), the `load_model` call if any (model name and
device), the `transcribe` call if any (its keyword arguments), the file
written if any (path and content), and the messages printed to stderr and
stdout. -/
structure MainResult where
  exitCode : ℕ
  loadedModel : Option (String × Option String)
  transcribeCall : Option TranscribeKwargs
  written : Option (String × String)
  stderrLines : List String
  stdoutLines : List String

/-- Embedding of `main` (lines 48-117); named `main'` because `main` is reserved for the executable entry point in Lean.  The filesystem is modelled by the
predicate `isfile` and the external Whisper call by the oracle value
`result` it returns; everything else follows the source line by line. -/
def main' (args : Args) (isfile : String → Bool) (result : TranscribeResult) :
    MainResult :=
  if isfile args.input = false then
    { exitCode := 1
      loadedModel := none
      transcribeCall := none
      written := none
      stderrLines := ["Input not found: " ++ args.input]
      stdoutLines := [] }
  else
    let kwargs : TranscribeKwargs :=
      { task := if args.translate then "translate" else "transcribe"
        language := args.language
        fp16 := if args.device = some "cuda" ∨ args.device = none then args.fp16
                else false
        temperature := 0
        no_speech_threshold := 6 / 10
        logprob_threshold := -1
        compression_ratio_threshold := 24 / 10
        condition_on_previous_text := false }
    let segments := result.segments.getD []
    if segments.isEmpty then
      { exitCode := 2
        loadedModel := some (args.model, args.device)
        transcribeCall := some kwargs
        written := none
        stderrLines := ["No segments returned. Nothing to write."]
        stdoutLines := ["Loading Whisper model \x27" ++ args.model ++ "\x27...",
                        "Transcribing \x27" ++ args.input ++ "\x27..."] }
    else
      let base := (splitext args.input).1
      let detected := result.language
      let lang := if args.translate then some "en" else pyOrOpt args.language detected
      let out_path := pyOrStr args.output
        (if optTruthy lang then base ++ "." ++ lang.getD "" ++ ".srt"
         else base ++ ".srt")
      { exitCode := 0
        loadedModel := some (args.model, args.device)
        transcribeCall := some kwargs
        written := some (out_path, write_srt segments)
        stderrLines := []
        stdoutLines := ["Loading Whisper model \x27" ++ args.model ++ "\x27...",
                        "Transcribing \x27" ++ args.input ++ "\x27...",
                        "Done. Wrote subtitles to: " ++ out_path] }

/-- Segment with every optional field filled by the default that
`write_srt` uses for a missing field: `0.0` for `start` and `end`, the
empty string for `text` (the `id` field has no default in the code). -/
def fillDefaults (s : Segment) : Segment :=
  { id := s.id, start := some (s.start.getD 0), endT := some (s.endT.getD 0),
    text := some (s.text.getD "") }

/-! Helper lemmas. -/

lemma totalMs_zero : totalMs 0 = 0 := by
  norm_num [totalMs, roundHalfEven]

lemma totalMs_360000 : totalMs 360000 = 360000000 := by
  norm_num [totalMs, roundHalfEven]
  rfl

lemma roundHalfEven_360000_us :
    roundHalfEven ((360000 : ℚ) * 1000000) = 360000000000 := by
  norm_num [roundHalfEven]

lemma timedeltaTotalUs_360000 :
    timedeltaTotalUs (360000 : ℚ) = some 360000000000 := by
  unfold timedeltaTotalUs
  rw [roundHalfEven_360000_us]
  rw [if_pos (by decide)]

lemma totalMsChecked_360000 : totalMsChecked (360000 : ℚ) = some 360000000 := by
  have h2 : roundHalfEven (((360000000000 : ℤ) : ℚ) / 1000000 * 1000) =
      360000000 := by
    norm_num [roundHalfEven]
  unfold totalMsChecked
  rw [if_neg (by norm_num : ¬ (360000 : ℚ) < 0), timedeltaTotalUs_360000,
    Option.map_some', h2]
  rfl

lemma srt_timestamp_checked_360000 :
    srt_timestamp_checked (360000 : ℚ) = some "100:00:00,000" := by
  unfold srt_timestamp_checked
  rw [totalMsChecked_360000, Option.map_some']
  rfl

lemma roundHalfEven_1e17_us :
    roundHalfEven ((100000000000000000 : ℚ) * 1000000) =
      100000000000000000000000 := by
  norm_num [roundHalfEven]

lemma timedeltaTotalUs_1e17 :
    timedeltaTotalUs (100000000000000000 : ℚ) = none := by
  unfold timedeltaTotalUs
  rw [roundHalfEven_1e17_us]
  rw [if_neg (by decide)]

lemma totalMsChecked_agrees (s : ℚ) (tms : ℕ)
    (h : totalMsChecked s = some tms) : totalMs s = tms := by
  have key : ∀ (q : ℚ) (n : ℕ),
      (timedeltaTotalUs q).map
        (fun us : ℤ => (roundHalfEven ((us : ℚ) / 1000000 * 1000)).toNat) =
        some n →
      (roundHalfEven (((roundHalfEven (q * 1000000) : ℤ) : ℚ) / 1000000 *
        1000)).toNat = n := by
    intro q n hq
    unfold timedeltaTotalUs at hq
    split at hq
    · simp only [Option.map_some'] at hq
      exact Option.some.inj hq
    · exact absurd hq (by simp)
  exact key (if s < 0 then 0 else s) tms h

lemma srt_timestamp_checked_agrees (s : ℚ) (r : String)
    (h : srt_timestamp_checked s = some r) : r = srt_timestamp s := by
  unfold srt_timestamp_checked at h
  cases hm : totalMsChecked s with
  | none => rw [hm] at h; exact absurd h (by simp)
  | some tms =>
      rw [hm, Option.map_some'] at h
      rw [← Option.some.inj h, ← totalMsChecked_agrees s tms hm]
      rfl

lemma totalMs_neg (s : ℚ) (h : s < 0) : totalMs s = 0 := by
  simp only [totalMs]
  rw [if_pos h]
  norm_num [roundHalfEven]

lemma srt_zero : srt_timestamp 0 = "00:00:00,000" := by
  unfold srt_timestamp
  rw [totalMs_zero]
  rfl

lemma pad_len_ge (w n : ℕ) : w ≤ (pad w n).length := by
  simp only [pad]
  rw [String.length_append, String.length_mk, List.length_replicate]
  omega

lemma pad2_len : ∀ n < 100, (pad 2 n).length = 2 := by decide

set_option maxRecDepth 16384 in
lemma pad3_len : ∀ n < 1000, (pad 3 n).length = 3 := by decide

lemma join_cons (a : String) (l : List String) :
    String.join (a :: l) = a ++ String.join l := by
  simp [String.join_eq]
  rfl

lemma write_srt_blocks_aux (i : ℕ) (segs : List Segment) :
    String.join ((List.enumFrom i segs).map (fun p => srtBlock p.1 p.2)) =
    specBlocksFrom i segs := by
  induction segs generalizing i with
  | nil => rfl
  | cons a l ih =>
      simp only [List.enumFrom, List.map, specBlocksFrom, join_cons, ih]
      rfl

lemma write_srt_blocks (segs : List Segment) :
    write_srt segs = specBlocksFrom 1 segs :=
  write_srt_blocks_aux 1 segs

lemma specBlocks_id_invariant (f : Segment → Option ℤ) (segs : List Segment) :
    ∀ i, specBlocksFrom i (segs.map (fun s => { s with id := f s })) =
    specBlocksFrom i segs := by
  induction segs with
  | nil => intro i; rfl
  | cons a l ih =>
      intro i
      simp only [List.map, specBlocksFrom, ih]

lemma specBlocks_fillDefaults (segs : List Segment) :
    ∀ i, specBlocksFrom i (segs.map fillDefaults) = specBlocksFrom i segs := by
  induction segs with
  | nil => intro i; rfl
  | cons a l ih =>
      intro i
      simp only [List.map, specBlocksFrom, ih]
      exact rfl

lemma main_kwargs (args : Args) (isfile : String → Bool)
    (result : TranscribeResult) (h : isfile args.input = true) :
    (main' args isfile result).transcribeCall = some
      { task := if args.translate then "translate" else "transcribe"
        language := args.language
        fp16 := if args.device = some "cuda" ∨ args.device = none then args.fp16
                else false
        temperature := 0
        no_speech_threshold := 6 / 10
        logprob_threshold := -1
        compression_ratio_threshold := 24 / 10
        condition_on_previous_text := false } := by
  unfold main'
  rw [if_neg (by simp [h])]
  dsimp only
  split <;> rfl

lemma main_written (args : Args) (isfile : String → Bool)
    (result : TranscribeResult) (h1 : isfile args.input = true)
    (h2 : result.segments.getD [] ≠ []) :
    (main' args isfile result).written = some
      (pyOrStr args.output
        (if optTruthy (if args.translate then some "en"
                       else pyOrOpt args.language result.language)
         then (splitext args.input).1 ++ "." ++
              (if args.translate then some "en"
               else pyOrOpt args.language result.language).getD "" ++ ".srt"
         else (splitext args.input).1 ++ ".srt"),
       write_srt (result.segments.getD [])) := by
  unfold main'
  rw [if_neg (by simp [h1])]
  dsimp only
  rw [if_neg (by simp [h2])]

/-! Claim theorems. -/

/-- C1: for every sequence of segments, the content `write_srt` writes is
exactly the concatenation, in segment order, of blocks consisting of the
index line, the timestamp-range line, the cleaned text line and a blank
line, with the index starting at 1 and incrementing by 1 per segment; and
the output is independent of any `id` field carried by the segments
themselves. -/
theorem write_srt_content :
    (∀ segs : List Segment, write_srt segs = specBlocksFrom 1 segs) ∧
    (∀ (segs : List Segment) (f : Segment → Option ℤ),
      write_srt (segs.map (fun s => { s with id := f s })) = write_srt segs) := by
  refine ⟨write_srt_blocks, fun segs f => ?_⟩
  rw [write_srt_blocks, write_srt_blocks, specBlocks_id_invariant]

/-- Counterexample for C2 as stated: the claim says `srt_timestamp` never
raises for any input, but at 10^17 seconds (a value exactly representable
as a Python float) the `timedelta` construction on line 25 overflows its
representable range of 999999999 days, so the program raises
`OverflowError` instead of returning a string; the faithful embedding
returns `none` there. -/
theorem srt_timestamp_overflow_cex :
    srt_timestamp_checked 100000000000000000 = none := by
  unfold srt_timestamp_checked totalMsChecked
  rw [if_neg (by norm_num : ¬ (100000000000000000 : ℚ) < 0),
    timedeltaTotalUs_1e17]
  rfl

/-- C2 (amended): whenever `srt_timestamp` returns (every input within the
range `timedelta` accepts after the negative clamp), the returned string
has the form HH:MM:SS,mmm in which the minute and second fields are
zero-padded to exactly 2 digits and lie below 60, the millisecond field is
zero-padded to exactly 3 digits and lies below 1000, and the hour field
has at least 2 digits but is not clamped: at 100 hours (360000 seconds) it
returns and grows to 3 digits.  For finite inputs beyond the `timedelta`
range the function raises instead of returning
(`srt_timestamp_overflow_cex`). -/
theorem srt_timestamp_format :
    (∀ (s : ℚ) (r : String), srt_timestamp_checked s = some r →
      ∃ H M S ms : ℕ,
        M < 60 ∧ S < 60 ∧ ms < 1000 ∧
        r = pad 2 H ++ ":" ++ pad 2 M ++ ":" ++ pad 2 S ++ "," ++ pad 3 ms ∧
        (pad 2 M).length = 2 ∧ (pad 2 S).length = 2 ∧
        (pad 3 ms).length = 3 ∧ 2 ≤ (pad 2 H).length) ∧
    srt_timestamp_checked 360000 = some "100:00:00,000" := by
  constructor
  · intro s r h
    unfold srt_timestamp_checked at h
    cases hm : totalMsChecked s with
    | none => rw [hm] at h; exact absurd h (by simp)
    | some tms =>
        rw [hm, Option.map_some'] at h
        refine ⟨tms / 3600000, tms % 3600000 / 60000,
          tms % 3600000 % 60000 / 1000, tms % 3600000 % 60000 % 1000,
          ?_, ?_, ?_, (Option.some.inj h).symm, ?_, ?_, ?_, pad_len_ge 2 _⟩
        · omega
        · omega
        · omega
        · exact pad2_len _ (by omega)
        · exact pad2_len _ (by omega)
        · exact pad3_len _ (by omega)
  · exact srt_timestamp_checked_360000

/-- Witness for C2 (amended) at the concrete input 360000 seconds
(100 hours), whose returned string is `100:00:00,000`. -/
theorem srt_timestamp_format_witness :
    ∃ H M S ms : ℕ,
      M < 60 ∧ S < 60 ∧ ms < 1000 ∧
      "100:00:00,000" =
        pad 2 H ++ ":" ++ pad 2 M ++ ":" ++ pad 2 S ++ "," ++ pad 3 ms ∧
      (pad 2 M).length = 2 ∧ (pad 2 S).length = 2 ∧
      (pad 3 ms).length = 3 ∧ 2 ≤ (pad 2 H).length :=
  srt_timestamp_format.1 360000 "100:00:00,000" srt_timestamp_format.2

/-- C3: for every negative input, `srt_timestamp` is clamped to zero and
returns exactly `00:00:00,000`, so it never fails on negative input and
never produces a timestamp with a negative component. -/
theorem srt_timestamp_clamp (s : ℚ) (h : s < 0) :
    srt_timestamp s = "00:00:00,000" := by
  unfold srt_timestamp
  rw [totalMs_neg s h]
  rfl

/-- Witness for C3 at the concrete input -5. -/
theorem srt_timestamp_clamp_witness : srt_timestamp (-5) = "00:00:00,000" :=
  srt_timestamp_clamp (-5) (by norm_num)

/-- C4: the text of a segment is emitted as `cleanText` of the raw text,
which first strips leading and trailing whitespace (the full CPython
whitespace set, exercised here with a no-break space and an ideographic
space) and then performs the narrow double-space substitution: a run of
two interior spaces collapses to one, while a run of three interior
spaces is only partially collapsed (to two spaces), not fully collapsed
to one. -/
theorem write_srt_text_cleanup :
    (∀ t : String, write_srt [{ text := some t }] =
      "1\n00:00:00,000 --> 00:00:00,000\n" ++ cleanText t ++ "\n\n") ∧
    cleanText "a  b" = "a b" ∧
    cleanText "a   b" = "a  b" ∧
    cleanText "a   b" ≠ "a b" ∧
    cleanText "\u00A0\ta  b\u3000" = "a b" := by
  refine ⟨fun t => ?_, rfl, rfl, by decide, rfl⟩
  rw [write_srt_blocks]
  simp only [specBlocksFrom, String.append_empty]
  dsimp only [Option.getD]
  rw [srt_zero]
  rfl

/-- C5: a missing `start`, `end` or `text` field defaults to 0, 0 and the
empty string respectively: filling the missing fields of every segment
with those defaults leaves the output unchanged, and a segment with all
three fields missing still produces a block, built from the defaults. -/
theorem write_srt_defaults :
    (∀ segs : List Segment, write_srt (segs.map fillDefaults) = write_srt segs) ∧
    write_srt [{}] = "1\n00:00:00,000 --> 00:00:00,000\n\n\n" := by
  constructor
  · intro segs
    rw [write_srt_blocks, write_srt_blocks, specBlocks_fillDefaults]
  · rw [write_srt_blocks]
    simp only [specBlocksFrom, String.append_empty]
    dsimp only [Option.getD]
    rw [srt_zero]
    rfl

/-- C6: when the input path does not name an existing file, `main` prints
an error to stderr and exits with code 1, without loading the model,
calling the transcription engine or writing any file. -/
theorem main_missing_input (args : Args) (isfile : String → Bool)
    (result : TranscribeResult) (h : isfile args.input = false) :
    (main' args isfile result).exitCode = 1 ∧
    (main' args isfile result).loadedModel = none ∧
    (main' args isfile result).transcribeCall = none ∧
    (main' args isfile result).written = none ∧
    (main' args isfile result).stderrLines =
      ["Input not found: " ++ args.input] := by
  simp [main', h]

/-- Witness for C6 at a concrete invocation whose input file is absent. -/
theorem main_missing_input_witness :
    (main' { input := "a.mp4" } (fun _ => false) {}).exitCode = 1 ∧
    (main' { input := "a.mp4" } (fun _ => false) {}).loadedModel = none ∧
    (main' { input := "a.mp4" } (fun _ => false) {}).transcribeCall = none ∧
    (main' { input := "a.mp4" } (fun _ => false) {}).written = none ∧
    (main' { input := "a.mp4" } (fun _ => false) {}).stderrLines =
      ["Input not found: " ++ "a.mp4"] :=
  main_missing_input { input := "a.mp4" } (fun _ => false) {} rfl

/-- C7: when the transcription call yields zero segments, `main` prints a
message to stderr and exits with code 2, and no file is written. -/
theorem main_zero_segments (args : Args) (isfile : String → Bool)
    (result : TranscribeResult) (h1 : isfile args.input = true)
    (h2 : result.segments.getD [] = []) :
    (main' args isfile result).exitCode = 2 ∧
    (main' args isfile result).written = none ∧
    (main' args isfile result).stderrLines =
      ["No segments returned. Nothing to write."] := by
  simp [main', h1, h2]

/-- Witness for C7 at a concrete invocation whose result has no segments. -/
theorem main_zero_segments_witness :
    (main' { input := "a.mp4" } (fun _ => true) {}).exitCode = 2 ∧
    (main' { input := "a.mp4" } (fun _ => true) {}).written = none ∧
    (main' { input := "a.mp4" } (fun _ => true) {}).stderrLines =
      ["No segments returned. Nothing to write."] :=
  main_zero_segments { input := "a.mp4" } (fun _ => true) {} rfl rfl

/-- Counterexample for C8 as stated: with `--language ""` (given but
empty), no `-o`, and detected language `fr`, the output path encodes the
detected language `fr`, not the given `--language` value, because the
Python expression `args.language or detected` treats the empty string as
absent.  The claim as stated predicts `a..srt`; the code produces
`a.fr.srt`. -/
theorem main_output_language_empty_cex :
    (main' { input := "a.mp4", language := some "" } (fun _ => true)
      { segments := some [{}], language := some "fr" }).written.map Prod.fst =
      some "a.fr.srt" ∧
    (main' { input := "a.mp4", language := some "" } (fun _ => true)
      { segments := some [{}], language := some "fr" }).written.map Prod.fst ≠
      some "a..srt" := by
  constructor
  · rfl
  · decide

/-- C8 (amended): when `-o` is not given, the output path is derived from
the root of `splitext` on the input path; the encoded language is `en`
when `--translate` is set, otherwise the `--language` value when given and
non-empty, otherwise the detected language; when the resulting language is
absent or empty the path is `<root>.srt`, otherwise `<root>.<lang>.srt`. -/
theorem main_output_path_cases (args : Args) (isfile : String → Bool)
    (result : TranscribeResult) (h1 : isfile args.input = true)
    (h2 : result.segments.getD [] ≠ []) (h3 : args.output = none) :
    (args.translate = true →
      (main' args isfile result).written.map Prod.fst =
        some ((splitext args.input).1 ++ "." ++ "en" ++ ".srt")) ∧
    (args.translate = false → ∀ l, args.language = some l → l ≠ "" →
      (main' args isfile result).written.map Prod.fst =
        some ((splitext args.input).1 ++ "." ++ l ++ ".srt")) ∧
    (args.translate = false → (args.language = none ∨ args.language = some "") →
      ∀ d, result.language = some d → d ≠ "" →
      (main' args isfile result).written.map Prod.fst =
        some ((splitext args.input).1 ++ "." ++ d ++ ".srt")) ∧
    (args.translate = false → (args.language = none ∨ args.language = some "") →
      (result.language = none ∨ result.language = some "") →
      (main' args isfile result).written.map Prod.fst =
        some ((splitext args.input).1 ++ ".srt")) := by
  have hw := main_written args isfile result h1 h2
  have hemp : ("" : String).isEmpty = true := rfl
  have hen : ("en" : String).isEmpty = false := rfl
  refine ⟨fun ht => ?_, fun ht l hl hlne => ?_, fun ht hlang d hd hdne => ?_,
    fun ht hlang hdet => ?_⟩
  · rw [hw, Option.map_some']
    simp [h3, ht, pyOrStr, optTruthy, hen]
  · have hE : l.isEmpty = false := by
      cases hEq : l.isEmpty with
      | false => rfl
      | true => exact absurd ((String.isEmpty_iff l).mp hEq) hlne
    rw [hw, Option.map_some']
    simp [h3, ht, hl, pyOrStr, pyOrOpt, optTruthy, hE]
  · have hE : d.isEmpty = false := by
      cases hEq : d.isEmpty with
      | false => rfl
      | true => exact absurd ((String.isEmpty_iff d).mp hEq) hdne
    rw [hw, Option.map_some']
    rcases hlang with hl | hl <;>
      simp [h3, ht, hl, hd, pyOrStr, pyOrOpt, optTruthy, hE, hemp]
  · rw [hw, Option.map_some']
    rcases hlang with hl | hl <;> rcases hdet with hd | hd <;>
      simp [h3, ht, hl, hd, pyOrStr, pyOrOpt, optTruthy, hemp]

/-- Witness for C8 (amended) at a concrete invocation with `--language fr`
and no `-o`. -/
theorem main_output_path_cases_witness :
    (main' { input := "a.mp4", language := some "fr" } (fun _ => true)
      { segments := some [{}] }).written.map Prod.fst = some "a.fr.srt" := by
  have h := (main_output_path_cases { input := "a.mp4", language := some "fr" }
    (fun _ => true) { segments := some [{}] } rfl (by simp) rfl).2.1 rfl
    "fr" rfl (by decide)
  rw [h]
  rfl

/-- C9: `srt_timestamp` is deterministic: two evaluations at equal inputs
yield the same output string.  The embedding is a pure function, which is
faithful to the source: the Python function reads and writes no state
outside its own locals. -/
theorem srt_timestamp_pure (s t : ℚ) (h : s = t) :
    srt_timestamp s = srt_timestamp t :=
  congrArg srt_timestamp h

/-- Witness for C9 at the concrete input 0. -/
theorem srt_timestamp_pure_witness : srt_timestamp 0 = srt_timestamp 0 :=
  srt_timestamp_pure 0 0 rfl

/-- C10: the `fp16` value passed to the transcription call equals the
`--fp16` flag exactly when `--device` is `cuda` or unset; for any other
explicitly given device it is forced to `false` even when the flag was
supplied. -/
theorem transcribe_fp16_device_gate (args : Args) (isfile : String → Bool)
    (result : TranscribeResult) (h : isfile args.input = true) :
    ((args.device = some "cuda" ∨ args.device = none) →
      (main' args isfile result).transcribeCall.map TranscribeKwargs.fp16 =
        some args.fp16) ∧
    (∀ d : String, args.device = some d → d ≠ "cuda" →
      (main' args isfile result).transcribeCall.map TranscribeKwargs.fp16 =
        some false) := by
  have hk := main_kwargs args isfile result h
  constructor
  · intro hd
    rw [hk, Option.map_some']
    dsimp only
    rw [if_pos hd]
  · intro d hd hne
    have hneg : ¬(args.device = some "cuda" ∨ args.device = none) := by
      rintro (h1 | h1)
      · rw [hd] at h1
        exact hne (Option.some.inj h1)
      · rw [hd] at h1
        exact Option.noConfusion h1
    rw [hk, Option.map_some']
    dsimp only
    rw [if_neg hneg]

/-- Witness for C10 at a concrete invocation with `--device cpu` and
`--fp16` set: the call receives `fp16 = false`. -/
theorem transcribe_fp16_device_gate_witness :
    (main' { input := "a.mp4", device := some "cpu", fp16 := true }
      (fun _ => true) {}).transcribeCall.map TranscribeKwargs.fp16 =
      some false :=
  (transcribe_fp16_device_gate
    { input := "a.mp4", device := some "cpu", fp16 := true }
    (fun _ => true) {} rfl).2 "cpu" rfl (by decide)
